import Mathlib

/-!
Verification of the natural-language specification of the
Vapor-Compression-Refrigeration repository against its sources.

The repository is a documentation book: `src/unnamed/part_000` holds the
theory chapter with the governing equations of the standard vapor
compression cycle, and the two notebooks call classes (`hvac.fluids.Fluid`,
`hvac.charts.StandardVaporCompressionCycle`) that live in a separate
package and are not part of this repository's sources.  The equations of
`part_000` are embedded literally; the constrained fluid-state resolver
and the steady-state cycle engine, whose code is missing from the sources,
are modelled from the specification (sections 3, 4.1, 4.2, 7 and 9 of the
spec), as noted in each definition's documentation.

All physical quantities are carried as rationals; the external real-fluid
property backend (CoolProp — out of the spec's scope) is an explicit
parameter of every resolver operation.
-/

namespace VCR

/-- The ten state properties exposed by the `Fluid` class, as listed in the
`refrigerants` notebook (temperature, pressure, mass density, specific
enthalpy, specific entropy, the two specific heats, vapor quality, thermal
conductivity, dynamic viscosity). -/
inductive StateProp where
  | T | P | rho | h | s | cp | cv | x | k | mu
deriving DecidableEq, Repr

/-- A fully resolved thermodynamic state: one rational value per state
property (spec section 3, ThermodynamicState). -/
structure ThermodynamicState where
  T : ℚ
  P : ℚ
  rho : ℚ
  h : ℚ
  s : ℚ
  cp : ℚ
  cv : ℚ
  x : ℚ
  k : ℚ
  mu : ℚ
deriving DecidableEq, Repr

/-- Modelled from the spec: a `Fluid` is an identifier for a pure
refrigerant or a defined mixture (spec section 3); the mixture/pure
distinction is a capability flag (spec section 9), and the fluid carries
its valid temperature and pressure domain (spec section 3: any state
produced by the resolver must lie inside the fluid's valid
temperature/pressure range).  The `hvac.fluids.Fluid` class itself is not
in the repository sources; only the notebooks that call it are. -/
structure Fluid where
  name : String
  isMixture : Bool
  Tmin : ℚ
  Tmax : ℚ
  Pmin : ℚ
  Pmax : ℚ
deriving DecidableEq, Repr

/-- The external property backend (spec section 6): given a fluid and two
property/value pairs it either completes the state or reports that the
request is invalid or out of range (`none`).  CoolProp plays this role in
the notebooks and is out of the spec's scope, so it is a parameter here. -/
def Backend : Type :=
  Fluid → StateProp → ℚ → StateProp → ℚ → Option ThermodynamicState

/-- The error taxonomy of spec section 7. -/
inductive ResolveError where
  | invalidFluidSpecification
  | invalidPropertyCombination
  | outOfRange
  | convergenceFailure
  | inconsistentCycleParameters
deriving DecidableEq, Repr

/-- Read one property of a resolved state. -/
def getProp (st : ThermodynamicState) : StateProp → ℚ
  | .T => st.T
  | .P => st.P
  | .rho => st.rho
  | .h => st.h
  | .s => st.s
  | .cp => st.cp
  | .cv => st.cv
  | .x => st.x
  | .k => st.k
  | .mu => st.mu

/-- Replace one property of a state (used to keep a resolved state
consistent with the two properties that were requested). -/
def setProp (st : ThermodynamicState) : StateProp → ℚ → ThermodynamicState
  | .T, v => { st with T := v }
  | .P, v => { st with P := v }
  | .rho, v => { st with rho := v }
  | .h, v => { st with h := v }
  | .s, v => { st with s := v }
  | .cp, v => { st with cp := v }
  | .cv, v => { st with cv := v }
  | .x, v => { st with x := v }
  | .k, v => { st with k := v }
  | .mu, v => { st with mu := v }

/-- The three property pairs a mixture accepts directly, from the
`refrigerants` notebook: pressure and quality, temperature and quality,
pressure and temperature (order of the two properties is immaterial). -/
def mixturePairAllowed : StateProp → StateProp → Bool
  | .P, .x => true
  | .x, .P => true
  | .T, .x => true
  | .x, .T => true
  | .P, .T => true
  | .T, .P => true
  | _, _ => false

/-- Modelled from the spec: domain validation of a requested property
value (spec sections 3 and 7, `OutOfRange`): temperature and pressure must
lie inside the fluid's valid range, vapor quality inside [0, 1]. -/
def propValueValid (f : Fluid) : StateProp → ℚ → Bool
  | .T, v => decide (f.Tmin ≤ v) && decide (v ≤ f.Tmax)
  | .P, v => decide (f.Pmin ≤ v) && decide (v ≤ f.Pmax)
  | .x, v => decide (0 ≤ v) && decide (v ≤ 1)
  | _, _ => true

/-- Modelled from the spec: the direct resolution operation of section 4.1
(`Fluid.__call__` with two state properties in the notebooks; the class
itself is not in the repository sources).  The two properties must be
distinct; for a mixture the pair must be one of the three directly
supported combinations; the requested values must lie inside the fluid's
domain; then the backend completes the state, and the two requested
properties are kept exactly as requested in the returned state. -/
def resolve_direct (be : Backend) (f : Fluid) (pA : StateProp) (vA : ℚ)
    (pB : StateProp) (vB : ℚ) : Except ResolveError ThermodynamicState :=
  if pA = pB then .error .invalidPropertyCombination
  else if f.isMixture && !mixturePairAllowed pA pB then
    .error .invalidPropertyCombination
  else if !(propValueValid f pA vA && propValueValid f pB vB) then
    .error .outOfRange
  else
    match be f pA vA pB vB with
    | none => .error .outOfRange
    | some st => .ok (setProp (setProp st pA vA) pB vB)

/-- Modelled from the spec: absolute tolerance on the residual of the
indirect search (spec section 4.1: a tolerance on the order of the
backend's own numeric precision). -/
def tolerance : ℚ := 1 / 1000

/-- Modelled from the spec: the hard wall on bracket shrink of the
indirect search (spec sections 5 and 9: a minimum bracket width). -/
def minBracketWidth : ℚ := 1 / 1000000000000

/-- Modelled from the spec: the hard iteration cap of the indirect search
(spec sections 4.1, 5 and 9: a fixed maximum iteration count). -/
def maxIterations : Nat := 100

/-- Modelled from the spec: the bounded 1-D root search of section 4.1
(sections 5 and 9: bracketed bisection, hard iteration cap, minimum
bracket width; the secant acceleration of section 9 is omitted — it does
not affect the cap, tolerance or domain properties stated below).  At each
trial the state is resolved directly from the anchor property and the
trial value of the search property; the loop returns the state as soon as
the target residual meets the tolerance, refines the bracket otherwise
(the target is taken increasing in the search property), and reports
`ConvergenceFailure` when the iteration budget is exhausted or the bracket
has shrunk below the minimum width. -/
def searchLoop (be : Backend) (f : Fluid) (anchor : StateProp) (av : ℚ)
    (tprop : StateProp) (tv : ℚ) (sprop : StateProp) :
    Nat → ℚ → ℚ → ℚ → Except ResolveError ThermodynamicState
  | 0, _, _, _ => .error .convergenceFailure
  | Nat.succ fuel, lo, hi, trial =>
    if hi - lo < minBracketWidth then .error .convergenceFailure
    else
      match resolve_direct be f anchor av sprop trial with
      | .error e => .error e
      | .ok st =>
        if |getProp st tprop - tv| ≤ tolerance then .ok st
        else if getProp st tprop < tv then
          searchLoop be f anchor av tprop tv sprop fuel trial hi ((trial + hi) / 2)
        else
          searchLoop be f anchor av tprop tv sprop fuel lo trial ((lo + trial) / 2)

/-- Is a property one of the three the indirect search may anchor on or
search over (spec section 4.1: pressure, temperature, quality)? -/
def iterProp : StateProp → Bool
  | .P => true
  | .T => true
  | .x => true
  | _ => false

/-- The search interval of the indirect search: the fluid's valid domain
of the search property ([0, 1] for quality). -/
def searchInterval (f : Fluid) : StateProp → ℚ × ℚ
  | .x => (0, 1)
  | .T => (f.Tmin, f.Tmax)
  | .P => (f.Pmin, f.Pmax)
  | _ => (0, 0)

/-- Clamp the initial guess into the search interval. -/
def clampQ (g lo hi : ℚ) : ℚ := max lo (min g hi)

/-- Modelled from the spec: the indirect resolution operation of section
4.1 (the iterative workaround inside `Fluid.__call__` described in the
`refrigerants` notebook; the class itself is not in the repository
sources).  The anchor and search properties must be distinct members of
{pressure, temperature, quality}; the supplied value of the search
property is only the initial guess of the bounded root search. -/
def resolve_indirect (be : Backend) (f : Fluid) (anchor : StateProp)
    (av : ℚ) (tprop : StateProp) (tv : ℚ) (sprop : StateProp) (guess : ℚ) :
    Except ResolveError ThermodynamicState :=
  if iterProp anchor && iterProp sprop && !(anchor = sprop) then
    let lohi := searchInterval f sprop
    searchLoop be f anchor av tprop tv sprop maxIterations
      lohi.1 lohi.2 (clampQ guess lohi.1 lohi.2)
  else .error .invalidPropertyCombination

/-- Modelled from the spec: the control input of the cycle engine (spec
section 3, CycleParameters; the `StandardVaporCompressionCycle` class the
`log_ph_diagram` notebook constructs is not in the repository sources).
The suction-line variant of the superheat input is not modelled; no claim
touches it. -/
structure CycleParameters where
  Tevap : ℚ
  Tcond : ℚ
  superheat : ℚ
  subcool : ℚ
  eta : ℚ
deriving DecidableEq, Repr

/-- Modelled from the spec: the parameter invariants of section 3 —
evaporation temperature below condensation temperature, superheat and
subcooling nonnegative, isentropic efficiency in (0, 1]; a violation is
`InconsistentCycleParameters` (spec section 7). -/
def validateParams (p : CycleParameters) : Except ResolveError Unit :=
  if p.Tevap < p.Tcond ∧ 0 ≤ p.superheat ∧ 0 ≤ p.subcool
      ∧ 0 < p.eta ∧ p.eta ≤ 1 then .ok ()
  else .error .inconsistentCycleParameters

/-- The four-point state table of spec section 3, together with the
auxiliary ideal compressor outlet state 3*. -/
structure CyclePointSet where
  s1 : ThermodynamicState
  s2 : ThermodynamicState
  s3 : ThermodynamicState
  s4 : ThermodynamicState
  s3star : ThermodynamicState
deriving DecidableEq, Repr

/-- Modelled from the spec: steps 1 to 5 of `build_cycle` (spec section
4.2), which do not involve the isentropic efficiency — saturated-liquid
reference at the evaporation temperature (giving the evaporator
pressure), evaporator outlet at the superheated temperature,
saturated-liquid reference at the condensation temperature (giving the
condenser pressure), subcooled condenser outlet, the isenthalpic
correction of state 1 through the indirect search over quality, and the
ideal compressor outlet at the condenser pressure and state 2's
entropy.  Returns (state 1, state 2, state 4, state 3*). -/
def resolveCore (be : Backend) (f : Fluid) (tEvap tCond sh sc : ℚ) :
    Except ResolveError
      (ThermodynamicState × ThermodynamicState × ThermodynamicState × ThermodynamicState) :=
  match resolve_direct be f .T tEvap .x 0 with
  | .error e => .error e
  | .ok s1sat =>
    match resolve_direct be f .P s1sat.P .T (tEvap + sh) with
    | .error e => .error e
    | .ok s2 =>
      match resolve_direct be f .T tCond .x 0 with
      | .error e => .error e
      | .ok s4sat =>
        match resolve_direct be f .P s4sat.P .T (tCond - sc) with
        | .error e => .error e
        | .ok s4 =>
          match resolve_indirect be f .T tEvap .h s4.h .x 0 with
          | .error e => .error e
          | .ok s1 =>
            match resolve_direct be f .P s4sat.P .s s2.s with
            | .error e => .error e
            | .ok s3star => .ok (s1, s2, s4, s3star)

/-- Modelled from the spec: `build_cycle` (spec section 4.2; the
`StandardVaporCompressionCycle` class is not in the repository sources).
After validating the parameters and resolving states 1, 2, 4 and 3*, step
6 computes the actual specific compression work as the isentropic
specific work divided by the isentropic efficiency and resolves state 3
at the condenser pressure and state 2's enthalpy plus that work; any
resolver failure aborts the whole construction. -/
def build_cycle (be : Backend) (f : Fluid) (p : CycleParameters) :
    Except ResolveError CyclePointSet :=
  match validateParams p with
  | .error e => .error e
  | .ok _ =>
    match resolveCore be f p.Tevap p.Tcond p.superheat p.subcool with
    | .error e => .error e
    | .ok (s1, s2, s4, s3star) =>
      match resolve_direct be f .P s3star.P .h
          (s2.h + (s3star.h - s2.h) / p.eta) with
      | .error e => .error e
      | .ok s3 => .ok ⟨s1, s2, s3, s4, s3star⟩

/-- The EER equation of `src/unnamed/part_000` (line 144):
EER = (h2 - h1) / (h3 - h2), refrigeration effect over actual specific
compression work. -/
def EER_eq (h1 h2 h3 : ℚ) : ℚ := (h2 - h1) / (h3 - h2)

/-- The COP equation of `src/unnamed/part_000` exactly as printed at line
150: COP = (h3 - h4) / (h3 - h1) — note the denominator h3 - h1, which
the same source contradicts at line 156 (COP = 1 + EER) and line 159
(COP strictly above EER). -/
def COP_eq150 (h1 h3 h4 : ℚ) : ℚ := (h3 - h4) / (h3 - h1)

/-- The isentropic-efficiency equation of `src/unnamed/part_000` (line
89): the ratio of isentropic specific compression work h3s - h2 to actual
specific compression work h3 - h2. -/
def eta_is (h3s h2 h3 : ℚ) : ℚ := (h3s - h2) / (h3 - h2)

/-- The compressor-power equation of `src/unnamed/part_000` exactly as
printed at line 95: the really absorbed specific compressor work written
as the isentropic efficiency times the isentropic specific work — which
the same source contradicts at lines 86 to 90 (the efficiency is the
ratio of isentropic to actual work, and the real work exceeds the
isentropic work). -/
def Wc_eq95 (eta wis : ℚ) : ℚ := eta * wis

/-- EER of a cycle point set, the equation of `src/unnamed/part_000`
line 144 applied to the resolved states. -/
def EER (c : CyclePointSet) : ℚ := (c.s2.h - c.s1.h) / (c.s3.h - c.s2.h)

/-- Modelled from the spec: COP of a cycle point set, (h3 - h4) divided
by the actual specific compression work h3 - h2 (spec section 4.2).  The
source's line 150 instead divides by h3 - h1, which contradicts the
source's own derivation at line 156; the literal line-150 equation is
embedded separately as `COP_eq150`. -/
def COP (c : CyclePointSet) : ℚ := (c.s3.h - c.s4.h) / (c.s3.h - c.s2.h)

/-- A state with every property equal to zero, used as the fallback of
the result extractors below. -/
def zeroState : ThermodynamicState := ⟨0, 0, 0, 0, 0, 0, 0, 0, 0, 0⟩

/-- Extract the state of a successful resolution (zero state on error). -/
def stateOf (r : Except ResolveError ThermodynamicState) : ThermodynamicState :=
  match r with
  | .ok st => st
  | .error _ => zeroState

/-- Extract the point set of a successful cycle construction (all-zero
point set on error). -/
def cycleOf (r : Except ResolveError CyclePointSet) : CyclePointSet :=
  match r with
  | .ok c => c
  | .error _ => ⟨zeroState, zeroState, zeroState, zeroState, zeroState⟩

/-- A concrete pure test fluid with a rational toy equation of state,
used to exercise the resolver and the engine on closed inputs. -/
def toyFluid : Fluid :=
  { name := "TOY", isMixture := false
    Tmin := -100, Tmax := 200, Pmin := 0, Pmax := 1000 }

/-- The mixture of R32 and R1234yf from the `refrigerants` notebook
(R454B), as a fluid value with the capability flag of a mixture. -/
def R454B : Fluid :=
  { name := "R32&R1234yf", isMixture := true
    Tmin := -100, Tmax := 100, Pmin := 0, Pmax := 50 }

/-- A rational toy property backend: saturation pressure is the
temperature plus 100; in the two-phase region (temperature and quality
given) the enthalpy is 100 + T + 200 x and the entropy is the quality;
for a pressure/temperature pair the enthalpy is 2 T - 2 P + 370 and the
entropy is T + P / 2; a pressure/entropy pair yields enthalpy s + P and a
pressure/enthalpy pair keeps the given enthalpy.  Unsupported pairs are
rejected. -/
def toyBackend : Backend := fun _ pA vA pB vB =>
  match pA, pB with
  | .T, .x =>
    some { zeroState with T := vA, x := vB, P := vA + 100,
                          h := 100 + vA + 200 * vB, s := vB }
  | .P, .T =>
    some { zeroState with P := vA, T := vB,
                          h := 2 * vB - 2 * vA + 370, s := vB + vA / 2 }
  | .P, .s =>
    some { zeroState with P := vA, s := vB, h := vB + vA }
  | .P, .h =>
    some { zeroState with P := vA, h := vB }
  | _, _ => none

/-- Concrete cycle parameters for the toy fluid: evaporation at 10,
condensation at 50, superheat 5, subcooling 5, isentropic efficiency
one half. -/
def toyParams : CycleParameters :=
  { Tevap := 10, Tcond := 50, superheat := 5, subcool := 5, eta := 1 / 2 }

lemma getProp_setProp_same (st : ThermodynamicState) (p : StateProp) (v : ℚ) :
    getProp (setProp st p v) p = v := by
  cases p <;> rfl

lemma getProp_setProp_ne (st : ThermodynamicState) (p q : StateProp) (v : ℚ)
    (hq : q ≠ p) : getProp (setProp st p v) q = getProp st q := by
  cases p <;> cases q <;> simp_all [getProp, setProp]

/-- A successful direct resolution implies: the two properties were
distinct, both values passed the domain validation, and the returned
state carries the two requested values exactly. -/
lemma resolve_direct_ok (be : Backend) (f : Fluid) (pA : StateProp) (vA : ℚ)
    (pB : StateProp) (vB : ℚ) (st : ThermodynamicState)
    (h : resolve_direct be f pA vA pB vB = .ok st) :
    pA ≠ pB ∧ propValueValid f pA vA = true ∧ propValueValid f pB vB = true ∧
      getProp st pA = vA ∧ getProp st pB = vB := by
  unfold resolve_direct at h
  split at h
  · simp at h
  next hne =>
    split at h
    · simp at h
    next hmix =>
      split at h
      · simp at h
      next hvalid =>
        split at h
        · simp at h
        next st0 hbe =>
          simp only [Except.ok.injEq] at h
          subst h
          simp only [Bool.not_eq_true, Bool.not_eq_false',
            Bool.and_eq_true] at hvalid
          refine ⟨hne, hvalid.1, hvalid.2, ?_, getProp_setProp_same _ _ _⟩
          rw [getProp_setProp_ne _ _ _ _ hne]
          exact getProp_setProp_same _ _ _

/-- The quality domain validation accepts exactly the interval [0, 1]. -/
lemma propValueValid_x (f : Fluid) (v : ℚ) :
    propValueValid f .x v = true ↔ 0 ≤ v ∧ v ≤ 1 := by
  simp [propValueValid]

/-- With the iteration budget exhausted, the root search reports a
convergence failure. -/
lemma searchLoop_zero (be : Backend) (f : Fluid) (anchor : StateProp)
    (av : ℚ) (tprop : StateProp) (tv : ℚ) (sprop : StateProp) (lo hi trial : ℚ) :
    searchLoop be f anchor av tprop tv sprop 0 lo hi trial =
      .error .convergenceFailure := rfl

/-- With the bracket narrower than the minimum width, the root search
reports a convergence failure whatever the remaining budget. -/
lemma searchLoop_narrow (be : Backend) (f : Fluid) (anchor : StateProp)
    (av : ℚ) (tprop : StateProp) (tv : ℚ) (sprop : StateProp)
    (fuel : Nat) (lo hi trial : ℚ) (hw : hi - lo < minBracketWidth) :
    searchLoop be f anchor av tprop tv sprop fuel lo hi trial =
      .error .convergenceFailure := by
  cases fuel with
  | zero => rfl
  | succ n => simp [searchLoop, hw]

/-- Any state the root search returns meets the target tolerance: the
loop never hands back an imprecise state. -/
lemma searchLoop_ok_tol (be : Backend) (f : Fluid) (anchor : StateProp)
    (av : ℚ) (tprop : StateProp) (tv : ℚ) (sprop : StateProp) :
    ∀ (fuel : Nat) (lo hi trial : ℚ) (st : ThermodynamicState),
      searchLoop be f anchor av tprop tv sprop fuel lo hi trial = .ok st →
      |getProp st tprop - tv| ≤ tolerance := by
  intro fuel
  induction fuel with
  | zero => intro lo hi trial st h; simp [searchLoop] at h
  | succ n ih =>
    intro lo hi trial st h
    rw [searchLoop] at h
    split at h
    · simp at h
    · split at h
      · simp at h
      · split at h
        next hres =>
          simp only [Except.ok.injEq] at h
          subst h
          exact hres
        · split at h
          · exact ih _ _ _ _ h
          · exact ih _ _ _ _ h

/-- When the search property is the vapor quality, any state the root
search returns has quality inside [0, 1] (the trial value passed the
domain validation of the direct resolution). -/
lemma searchLoop_ok_x (be : Backend) (f : Fluid) (anchor : StateProp)
    (av : ℚ) (tprop : StateProp) (tv : ℚ) :
    ∀ (fuel : Nat) (lo hi trial : ℚ) (st : ThermodynamicState),
      searchLoop be f anchor av tprop tv .x fuel lo hi trial = .ok st →
      0 ≤ st.x ∧ st.x ≤ 1 := by
  intro fuel
  induction fuel with
  | zero => intro lo hi trial st h; simp [searchLoop] at h
  | succ n ih =>
    intro lo hi trial st h
    rw [searchLoop] at h
    split at h
    · simp at h
    · split at h
      · simp at h
      next st0 hdir =>
        split at h
        · simp only [Except.ok.injEq] at h
          subst h
          rcases resolve_direct_ok _ _ _ _ _ _ _ hdir with ⟨_, _, hvB, _, hgetB⟩
          have hx : st0.x = trial := hgetB
          rcases (propValueValid_x f trial).mp hvB with ⟨h0, h1⟩
          rw [hx]
          exact ⟨h0, h1⟩
        · split at h
          · exact ih _ _ _ _ h
          · exact ih _ _ _ _ h

/-- With pressure or temperature as anchor and quality as second
property, the only failure a direct resolution can report is
`OutOfRange`: the pair is one of the three directly supported
combinations even for a mixture. -/
lemma resolve_direct_err_x (be : Backend) (f : Fluid) (anchor : StateProp)
    (av q : ℚ) (e : ResolveError) (ha : anchor = .P ∨ anchor = .T)
    (h : resolve_direct be f anchor av .x q = .error e) : e = .outOfRange := by
  rcases ha with ha | ha <;> subst ha <;>
    · unfold resolve_direct at h
      simp only [reduceCtorEq, if_false, mixturePairAllowed, Bool.not_true,
        Bool.and_false, Bool.false_eq_true, if_false] at h
      split at h
      · simp only [Except.error.injEq] at h
        exact h.symm
      · split at h
        · simp only [Except.error.injEq] at h
          exact h.symm
        · simp at h

/-- If every achievable trial state misses the target by more than the
tolerance, the root search over quality fails — with `OutOfRange` or
`ConvergenceFailure` — rather than returning a state. -/
lemma searchLoop_allfail (be : Backend) (f : Fluid) (anchor : StateProp)
    (av : ℚ) (tprop : StateProp) (tv : ℚ) (ha : anchor = .P ∨ anchor = .T)
    (hmiss : ∀ (q : ℚ) (st : ThermodynamicState),
      resolve_direct be f anchor av .x q = .ok st →
      tolerance < |getProp st tprop - tv|) :
    ∀ (fuel : Nat) (lo hi trial : ℚ),
      searchLoop be f anchor av tprop tv .x fuel lo hi trial =
          .error .outOfRange ∨
        searchLoop be f anchor av tprop tv .x fuel lo hi trial =
          .error .convergenceFailure := by
  intro fuel
  induction fuel with
  | zero => intro lo hi trial; right; rfl
  | succ n ih =>
    intro lo hi trial
    rw [searchLoop]
    split
    · right; rfl
    · split
      next e hdir =>
        left
        rw [resolve_direct_err_x be f anchor av trial e ha hdir]
      next st0 hdir =>
        split
        next hres => exact absurd hres (not_le.mpr (hmiss trial st0 hdir))
        next hres =>
          split
          · exact ih _ _ _
          · exact ih _ _ _

/-- Any state the indirect resolution returns meets the target
tolerance. -/
lemma resolve_indirect_ok_tol (be : Backend) (f : Fluid)
    (anchor : StateProp) (av : ℚ) (tprop : StateProp) (tv : ℚ)
    (sprop : StateProp) (guess : ℚ) (st : ThermodynamicState)
    (h : resolve_indirect be f anchor av tprop tv sprop guess = .ok st) :
    |getProp st tprop - tv| ≤ tolerance := by
  unfold resolve_indirect at h
  split at h
  · exact searchLoop_ok_tol be f anchor av tprop tv sprop _ _ _ _ st h
  · simp at h

/-- Structure of a successful cycle construction: the parameters were
valid, states 1, 2, 4 and 3* are the ones of the efficiency-independent
core, and state 3 sits at the condenser pressure with enthalpy equal to
state 2's enthalpy plus the isentropic specific work divided by the
isentropic efficiency. -/
lemma build_cycle_ok (be : Backend) (f : Fluid) (p : CycleParameters)
    (c : CyclePointSet) (h : build_cycle be f p = .ok c) :
    validateParams p = .ok () ∧
      resolveCore be f p.Tevap p.Tcond p.superheat p.subcool =
        .ok (c.s1, c.s2, c.s4, c.s3star) ∧
      c.s3.h = c.s2.h + (c.s3star.h - c.s2.h) / p.eta ∧
      c.s3.P = c.s3star.P := by
  unfold build_cycle at h
  split at h
  · simp at h
  next u hval =>
    split at h
    · simp at h
    next quad hcore =>
      obtain ⟨s1, s2, s4, s3star⟩ := quad
      split at h
      · simp at h
      next s3 hdir =>
        simp only [Except.ok.injEq] at h
        subst h
        rcases resolve_direct_ok _ _ _ _ _ _ _ hdir with ⟨_, _, _, hP, hh⟩
        exact ⟨by rw [hval], hcore, hh, hP⟩

/-- Structure of the efficiency-independent core: state 1 is produced by
the indirect search that fixes the evaporation temperature, targets the
condenser-outlet enthalpy and searches over the quality. -/
lemma resolveCore_ok_s1 (be : Backend) (f : Fluid) (tEvap tCond sh sc : ℚ)
    (s1 s2 s4 s3star : ThermodynamicState)
    (h : resolveCore be f tEvap tCond sh sc = .ok (s1, s2, s4, s3star)) :
    resolve_indirect be f .T tEvap .h s4.h .x 0 = .ok s1 := by
  unfold resolveCore at h
  split at h
  · simp at h
  next s1sat h1 =>
    split at h
    · simp at h
    next s2a h2 =>
      split at h
      · simp at h
      next s4sat h3 =>
        split at h
        · simp at h
        next s4a h4 =>
          split at h
          · simp at h
          next s1a h5 =>
            split at h
            · simp at h
            next s3sa h6 =>
              simp only [Except.ok.injEq, Prod.mk.injEq] at h
              obtain ⟨hs1, hs2, hs4, hs3s⟩ := h
              subst hs1; subst hs2; subst hs4; subst hs3s
              exact h5

/-- A successful direct resolution decomposes into a backend answer with
the two requested properties written back. -/
lemma resolve_direct_ok_backend (be : Backend) (f : Fluid) (pA : StateProp)
    (vA : ℚ) (pB : StateProp) (vB : ℚ) (st : ThermodynamicState)
    (h : resolve_direct be f pA vA pB vB = .ok st) :
    ∃ st0, be f pA vA pB vB = some st0 ∧
      st = setProp (setProp st0 pA vA) pB vB := by
  unfold resolve_direct at h
  split at h
  · simp at h
  · split at h
    · simp at h
    · split at h
      · simp at h
      · split at h
        · simp at h
        next st0 hbe =>
          simp only [Except.ok.injEq] at h
          exact ⟨st0, hbe, h.symm⟩

/-- Evaporator inlet of the toy cycle: the indirect search over quality
at the evaporation temperature converges to quality one quarter. -/
def toyState1 : ThermodynamicState := ⟨10, 110, 0, 160, 1/4, 0, 0, 1/4, 0, 0⟩

/-- Evaporator outlet of the toy cycle (5 of superheat). -/
def toyState2 : ThermodynamicState := ⟨15, 110, 0, 180, 70, 0, 0, 0, 0, 0⟩

/-- Compressor outlet of the toy cycle at isentropic efficiency one half
(isentropic work 40, actual work 80). -/
def toyState3 : ThermodynamicState := ⟨0, 150, 0, 260, 0, 0, 0, 0, 0, 0⟩

/-- Condenser outlet of the toy cycle (5 of subcooling). -/
def toyState4 : ThermodynamicState := ⟨45, 150, 0, 160, 120, 0, 0, 0, 0, 0⟩

/-- Ideal compressor outlet of the toy cycle. -/
def toyState3star : ThermodynamicState := ⟨0, 150, 0, 220, 70, 0, 0, 0, 0, 0⟩

/-- Compressor outlet of the toy cycle at isentropic efficiency one
(actual work equal to the isentropic work 40). -/
def toyState3i : ThermodynamicState := ⟨0, 150, 0, 220, 0, 0, 0, 0, 0, 0⟩

/-- The cycle the toy backend produces for the toy parameters (isentropic
efficiency one half). -/
def toyCycle : CyclePointSet :=
  ⟨toyState1, toyState2, toyState3, toyState4, toyState3star⟩

/-- The cycle the toy backend produces for the toy parameters with the
isentropic efficiency raised to one. -/
def toyCycleEta1 : CyclePointSet :=
  ⟨toyState1, toyState2, toyState3i, toyState4, toyState3star⟩

/-- One unfolding of the root search. -/
lemma searchLoop_succ (be : Backend) (f : Fluid) (anchor : StateProp)
    (av : ℚ) (tprop : StateProp) (tv : ℚ) (sprop : StateProp) (fuel : Nat)
    (lo hi trial : ℚ) :
    searchLoop be f anchor av tprop tv sprop (fuel + 1) lo hi trial =
      (if hi - lo < minBracketWidth then .error .convergenceFailure
       else
        match resolve_direct be f anchor av sprop trial with
        | .error e => .error e
        | .ok st =>
          if |getProp st tprop - tv| ≤ tolerance then .ok st
          else if getProp st tprop < tv then
            searchLoop be f anchor av tprop tv sprop fuel trial hi
              ((trial + hi) / 2)
          else
            searchLoop be f anchor av tprop tv sprop fuel lo trial
              ((lo + trial) / 2)) := rfl

/-- Toy-backend evaluation: two-phase resolution at the evaporation
temperature. -/
lemma toy_rd_Tx (q : ℚ) (h0 : 0 ≤ q) (h1 : q ≤ 1) :
    resolve_direct toyBackend toyFluid .T 10 .x q =
      .ok ⟨10, 110, 0, 110 + 200 * q, q, 0, 0, q, 0, 0⟩ := by
  unfold resolve_direct
  rw [if_neg (by decide), if_neg (by decide),
    if_neg (by norm_num [propValueValid, toyFluid, h0, h1])]
  show Except.ok _ = _
  simp only [setProp, toyBackend, zeroState, Except.ok.injEq]
  norm_num

/-- Toy-backend evaluation: saturated liquid at the evaporation
temperature. -/
lemma toy_rd_Tx0 :
    resolve_direct toyBackend toyFluid .T 10 .x 0 =
      .ok ⟨10, 110, 0, 110, 0, 0, 0, 0, 0, 0⟩ := by
  rw [toy_rd_Tx 0 le_rfl (by norm_num)]
  norm_num

/-- Toy-backend evaluation: saturated liquid at the condensation
temperature. -/
lemma toy_rd_Tx50 :
    resolve_direct toyBackend toyFluid .T 50 .x 0 =
      .ok ⟨50, 150, 0, 150, 0, 0, 0, 0, 0, 0⟩ := by
  unfold resolve_direct
  rw [if_neg (by decide), if_neg (by decide),
    if_neg (by norm_num [propValueValid, toyFluid])]
  show Except.ok _ = _
  simp only [setProp, toyBackend, zeroState, Except.ok.injEq]
  norm_num

/-- Toy-backend evaluation: the evaporator outlet. -/
lemma toy_rd_PT1 :
    resolve_direct toyBackend toyFluid .P 110 .T 15 = .ok toyState2 := by
  unfold resolve_direct
  rw [if_neg (by decide), if_neg (by decide),
    if_neg (by norm_num [propValueValid, toyFluid])]
  show Except.ok _ = _
  simp only [setProp, toyBackend, zeroState, toyState2, Except.ok.injEq]
  norm_num

/-- Toy-backend evaluation: the subcooled condenser outlet. -/
lemma toy_rd_PT2 :
    resolve_direct toyBackend toyFluid .P 150 .T 45 = .ok toyState4 := by
  unfold resolve_direct
  rw [if_neg (by decide), if_neg (by decide),
    if_neg (by norm_num [propValueValid, toyFluid])]
  show Except.ok _ = _
  simp only [setProp, toyBackend, zeroState, toyState4, Except.ok.injEq]
  norm_num

/-- Toy-backend evaluation: the ideal compressor outlet. -/
lemma toy_rd_Ps :
    resolve_direct toyBackend toyFluid .P 150 .s 70 = .ok toyState3star := by
  unfold resolve_direct
  rw [if_neg (by decide), if_neg (by decide),
    if_neg (by norm_num [propValueValid, toyFluid])]
  show Except.ok _ = _
  simp only [setProp, toyBackend, zeroState, toyState3star, Except.ok.injEq]
  norm_num

/-- Toy-backend evaluation: the real compressor outlet at efficiency one
half. -/
lemma toy_rd_Ph260 :
    resolve_direct toyBackend toyFluid .P 150 .h 260 = .ok toyState3 := by
  unfold resolve_direct
  rw [if_neg (by decide), if_neg (by decide),
    if_neg (by norm_num [propValueValid, toyFluid])]
  show Except.ok _ = _
  simp only [setProp, toyBackend, zeroState, toyState3, Except.ok.injEq]

/-- Toy-backend evaluation: the real compressor outlet at efficiency
one. -/
lemma toy_rd_Ph220 :
    resolve_direct toyBackend toyFluid .P 150 .h 220 = .ok toyState3i := by
  unfold resolve_direct
  rw [if_neg (by decide), if_neg (by decide),
    if_neg (by norm_num [propValueValid, toyFluid])]
  show Except.ok _ = _
  simp only [setProp, toyBackend, zeroState, toyState3i, Except.ok.injEq]

/-- The root search over quality for the toy target enthalpy 160
converges in three iterations (trials 0, one half, one quarter) whenever
at least three iterations of budget remain. -/
lemma toy_loop (n : Nat) :
    searchLoop toyBackend toyFluid .T 10 .h 160 .x (n + 3) 0 1 0 =
      .ok toyState1 := by
  have s3 : (n + 3) = (n + 2) + 1 := rfl
  have s2 : (n + 2) = (n + 1) + 1 := rfl
  rw [s3, searchLoop_succ, toy_rd_Tx 0 le_rfl (by norm_num)]
  norm_num [minBracketWidth, tolerance, getProp]
  rw [s2, searchLoop_succ, toy_rd_Tx (1/2) (by norm_num) (by norm_num)]
  norm_num [minBracketWidth, tolerance, getProp]
  rw [searchLoop_succ, toy_rd_Tx (1/4) (by norm_num) (by norm_num)]
  norm_num [minBracketWidth, tolerance, getProp, toyState1]

/-- The same search started from the opposite end of the quality range
(initial guess 1) converges to the same state. -/
lemma toy_loop_g1 (n : Nat) :
    searchLoop toyBackend toyFluid .T 10 .h 160 .x (n + 3) 0 1 1 =
      .ok toyState1 := by
  have s3 : (n + 3) = (n + 2) + 1 := rfl
  have s2 : (n + 2) = (n + 1) + 1 := rfl
  rw [s3, searchLoop_succ, toy_rd_Tx 1 (by norm_num) le_rfl]
  norm_num [minBracketWidth, tolerance, getProp]
  rw [s2, searchLoop_succ, toy_rd_Tx (1/2) (by norm_num) (by norm_num)]
  norm_num [minBracketWidth, tolerance, getProp]
  rw [searchLoop_succ, toy_rd_Tx (1/4) (by norm_num) (by norm_num)]
  norm_num [minBracketWidth, tolerance, getProp, toyState1]

/-- Indirect resolution on the toy backend: anchor temperature 10, target
enthalpy 160, search over quality from guess 0. -/
lemma toy_ri :
    resolve_indirect toyBackend toyFluid .T 10 .h 160 .x 0 =
      .ok toyState1 := by
  unfold resolve_indirect
  rw [if_pos (by decide)]
  show searchLoop _ _ _ _ _ _ _ maxIterations 0 1 (clampQ 0 0 1) = _
  rw [show clampQ 0 0 1 = 0 by
        rw [clampQ, min_eq_left (by norm_num : (0:ℚ) ≤ 1), max_self],
    show maxIterations = 97 + 3 from rfl]
  exact toy_loop 97

/-- The same indirect resolution from guess 1 returns the same state. -/
lemma toy_ri_g1 :
    resolve_indirect toyBackend toyFluid .T 10 .h 160 .x 1 =
      .ok toyState1 := by
  unfold resolve_indirect
  rw [if_pos (by decide)]
  show searchLoop _ _ _ _ _ _ _ maxIterations 0 1 (clampQ 1 0 1) = _
  rw [show clampQ 1 0 1 = 1 by
        rw [clampQ, min_self, max_eq_right (by norm_num : (0:ℚ) ≤ 1)],
    show maxIterations = 97 + 3 from rfl]
  exact toy_loop_g1 97

/-- The efficiency-independent core of the toy cycle. -/
lemma toy_core :
    resolveCore toyBackend toyFluid 10 50 5 5 =
      .ok (toyState1, toyState2, toyState4, toyState3star) := by
  unfold resolveCore
  norm_num [toy_rd_Tx0, toy_rd_Tx50, toy_rd_PT1, toy_rd_PT2, toy_ri,
    toy_rd_Ps, toyState2, toyState4]

/-- The toy cycle is actually built by the engine. -/
lemma toy_build :
    build_cycle toyBackend toyFluid toyParams = .ok toyCycle := by
  unfold build_cycle
  norm_num [toyParams, validateParams, toy_core, toy_rd_Ph260,
    toyState2, toyState3star, toyCycle]

/-- The toy cycle at isentropic efficiency one is actually built by the
engine. -/
lemma toy_build_eta1 :
    build_cycle toyBackend toyFluid { toyParams with eta := 1 } =
      .ok toyCycleEta1 := by
  unfold build_cycle
  norm_num [toyParams, validateParams, toy_core, toy_rd_Ph220,
    toyState2, toyState3star, toyCycleEta1]

/-- C1: evaluated on a cycle built by the engine (toy backend, state
enthalpies h1 = h4 = 160, h2 = 180, h3 = 260), the COP computed with the
claim's denominator h3 - h2 satisfies COP = 1 + EER exactly, but the COP
equation exactly as printed at line 150 of `src/unnamed/part_000`
(denominator h3 - h1) evaluates to 1 and violates the identity — the
line-150 equation contradicts the source's own derivation at line 156. -/
theorem c1_cop_eer_identity :
    COP toyCycle = 1 + EER toyCycle ∧
    EER toyCycle = EER_eq toyCycle.s1.h toyCycle.s2.h toyCycle.s3.h ∧
    COP_eq150 toyCycle.s1.h toyCycle.s3.h toyCycle.s4.h = 1 ∧
    COP_eq150 toyCycle.s1.h toyCycle.s3.h toyCycle.s4.h ≠
      1 + EER_eq toyCycle.s1.h toyCycle.s2.h toyCycle.s3.h := by
  norm_num [COP, EER, EER_eq, COP_eq150, toyCycle, toyState1, toyState2,
    toyState3, toyState4]

/-- C2: with isentropic efficiency one half and isentropic specific work
40 (h2 = 180, h3* = 220), the compressor-work equation exactly as printed
at line 95 of `src/unnamed/part_000` yields an actual work of 20, below
the isentropic work, and the resulting state 3 enthalpy 200 gives an
isentropic efficiency of 2 instead of one half under the source's own
definition at line 89; dividing instead of multiplying (the claim, and
spec section 4.2 step 6) restores the efficiency one half, and the
modelled engine resolves state 3 at the condenser pressure with exactly
that enthalpy, the actual work being at least the isentropic work. -/
theorem c2_compression_work :
    Wc_eq95 (1 / 2) 40 = 20 ∧
    Wc_eq95 (1 / 2) 40 < 40 ∧
    eta_is 220 180 (180 + Wc_eq95 (1 / 2) 40) = 2 ∧
    eta_is 220 180 (180 + 40 / (1 / 2)) = 1 / 2 ∧
    toyCycle.s3.h = toyCycle.s2.h +
      (toyCycle.s3star.h - toyCycle.s2.h) / toyParams.eta ∧
    toyCycle.s3.P = toyCycle.s3star.P ∧
    toyCycle.s3star.h - toyCycle.s2.h ≤ toyCycle.s3.h - toyCycle.s2.h := by
  norm_num [Wc_eq95, eta_is, toyCycle, toyParams, toyState2, toyState3,
    toyState3star]

/-- C3: a direct resolution of a mixture with a property pair outside
{pressure, quality}, {temperature, quality}, {pressure, temperature}
fails with `InvalidPropertyCombination` rather than returning a state,
for every backend and every pair of values. -/
theorem c3_mixture_pairs (be : Backend) (f : Fluid) (pA : StateProp)
    (vA : ℚ) (pB : StateProp) (vB : ℚ) (hmix : f.isMixture = true)
    (hpair : mixturePairAllowed pA pB = false) :
    resolve_direct be f pA vA pB vB = .error .invalidPropertyCombination := by
  unfold resolve_direct
  split
  · rfl
  · rw [hmix, hpair]
    simp

/-- Witness for C3: the mixture of R32 and R1234yf resolved directly at a
temperature and an enthalpy — the very call the `refrigerants` notebook
notes would raise an exception — is rejected. -/
theorem c3_mixture_pairs_witness :
    R454B.isMixture = true ∧ mixturePairAllowed .T .h = false ∧
    resolve_direct toyBackend R454B .T (-10) .h 240 =
      .error .invalidPropertyCombination :=
  ⟨rfl, rfl, c3_mixture_pairs toyBackend R454B .T (-10) .h 240 rfl rfl⟩

/-- C4: every cycle point set the engine returns has state 1's enthalpy
equal to state 4's enthalpy to within the indirect-resolution tolerance:
state 1 is produced by the indirect search whose target is state 4's
enthalpy, and that search never returns a state missing its target by
more than the tolerance. -/
theorem c4_isenthalpic_expansion (be : Backend) (f : Fluid)
    (p : CycleParameters) (c : CyclePointSet)
    (h : build_cycle be f p = .ok c) : |c.s1.h - c.s4.h| ≤ tolerance := by
  rcases build_cycle_ok be f p c h with ⟨_, hcore, _, _⟩
  have h5 := resolveCore_ok_s1 be f p.Tevap p.Tcond p.superheat p.subcool
    c.s1 c.s2 c.s4 c.s3star hcore
  exact resolve_indirect_ok_tol be f .T p.Tevap .h c.s4.h .x 0 c.s1 h5

/-- Witness for C4: the toy cycle is actually built, and its expansion is
isenthalpic to tolerance (here exactly: both enthalpies are 160). -/
theorem c4_isenthalpic_expansion_witness :
    build_cycle toyBackend toyFluid toyParams = .ok toyCycle ∧
    |toyCycle.s1.h - toyCycle.s4.h| ≤ tolerance :=
  ⟨toy_build,
   c4_isenthalpic_expansion toyBackend toyFluid toyParams toyCycle toy_build⟩

/-- C6: the indirect search is bounded: with the iteration budget
exhausted it returns `ConvergenceFailure`; with the bracket below the
minimum width it returns `ConvergenceFailure` whatever budget remains;
and any state it does return meets the target tolerance — it never hands
back an imprecise state.  (The search itself is structural recursion on
the fixed iteration cap, so it terminates on every input by
construction.) -/
theorem c6_search_bounded (be : Backend) (f : Fluid) (anchor : StateProp)
    (av : ℚ) (tprop : StateProp) (tv : ℚ) (sprop : StateProp)
    (guess lo hi trial : ℚ) :
    searchLoop be f anchor av tprop tv sprop 0 lo hi trial =
      .error .convergenceFailure ∧
    (hi - lo < minBracketWidth → ∀ fuel : Nat,
      searchLoop be f anchor av tprop tv sprop fuel lo hi trial =
        .error .convergenceFailure) ∧
    (∀ st, resolve_indirect be f anchor av tprop tv sprop guess = .ok st →
      |getProp st tprop - tv| ≤ tolerance) := by
  refine ⟨searchLoop_zero be f anchor av tprop tv sprop lo hi trial, ?_, ?_⟩
  · intro hw fuel
    exact searchLoop_narrow be f anchor av tprop tv sprop fuel lo hi trial hw
  · intro st h
    exact resolve_indirect_ok_tol be f anchor av tprop tv sprop guess st h

/-- Witness for C6: on the toy backend, a zero budget and a degenerate
bracket each yield `ConvergenceFailure`, and the converged state of the
toy search meets its enthalpy target to tolerance. -/
theorem c6_search_bounded_witness :
    searchLoop toyBackend toyFluid .T 10 .h 160 .x 0 (1/2) (1/2) (1/2) =
      .error .convergenceFailure ∧
    searchLoop toyBackend toyFluid .T 10 .h 160 .x 5 (1/2) (1/2) (1/2) =
      .error .convergenceFailure ∧
    |getProp toyState1 .h - 160| ≤ tolerance := by
  have h := c6_search_bounded toyBackend toyFluid .T 10 .h 160 .x 0
    (1/2) (1/2) (1/2)
  exact ⟨h.1, h.2.1 (by norm_num [minBracketWidth]) 5, h.2.2 toyState1 toy_ri⟩

/-- C7: an indirect search over the vapor quality never returns a state
whose quality lies outside [0, 1]; and when no achievable quality meets
the target within tolerance, the search fails with `OutOfRange` or
`ConvergenceFailure` rather than returning a state. -/
theorem c7_quality_domain (be : Backend) (f : Fluid) (anchor : StateProp)
    (av : ℚ) (tprop : StateProp) (tv guess : ℚ) :
    (∀ st, resolve_indirect be f anchor av tprop tv .x guess = .ok st →
      0 ≤ st.x ∧ st.x ≤ 1) ∧
    ((anchor = .P ∨ anchor = .T) →
      (∀ (q : ℚ) (st : ThermodynamicState),
        resolve_direct be f anchor av .x q = .ok st →
        tolerance < |getProp st tprop - tv|) →
      resolve_indirect be f anchor av tprop tv .x guess =
          .error .outOfRange ∨
        resolve_indirect be f anchor av tprop tv .x guess =
          .error .convergenceFailure) := by
  constructor
  · intro st h
    unfold resolve_indirect at h
    split at h
    · exact searchLoop_ok_x be f anchor av tprop tv _ _ _ _ st h
    · simp at h
  · intro ha hmiss
    unfold resolve_indirect
    split
    · exact searchLoop_allfail be f anchor av tprop tv ha hmiss _ _ _ _
    next hcond =>
      rcases ha with ha | ha <;> subst ha <;> simp [iterProp] at hcond

/-- Witness for C7: the converged toy search returns quality one quarter,
inside [0, 1]; with the unachievable target enthalpy 1000 (the toy
two-phase enthalpy never exceeds 310) the search fails. -/
theorem c7_quality_domain_witness :
    (0 ≤ toyState1.x ∧ toyState1.x ≤ 1) ∧
    (resolve_indirect toyBackend toyFluid .T 10 .h 1000 .x 0 =
        .error .outOfRange ∨
      resolve_indirect toyBackend toyFluid .T 10 .h 1000 .x 0 =
        .error .convergenceFailure) := by
  constructor
  · exact (c7_quality_domain toyBackend toyFluid .T 10 .h 160 0).1
      toyState1 toy_ri
  · refine (c7_quality_domain toyBackend toyFluid .T 10 .h 1000 0).2
      (Or.inr rfl) ?_
    intro q st hok
    have hq := resolve_direct_ok _ _ _ _ _ _ _ hok
    rcases (propValueValid_x toyFluid q).mp hq.2.2.1 with ⟨h0, h1⟩
    rw [toy_rd_Tx q h0 h1] at hok
    simp only [Except.ok.injEq] at hok
    subst hok
    show tolerance < |110 + 200 * q - 1000|
    have hneg : (110 : ℚ) + 200 * q - 1000 < 0 := by nlinarith
    rw [abs_of_neg hneg]
    unfold tolerance
    nlinarith

/-- C8: holding the backend, the fluid and all other parameters fixed,
raising the isentropic efficiency strictly increases both EER and COP of
the built cycle, provided the cycle is nondegenerate (positive
refrigeration effect, positive isentropic work, condenser outlet below
the evaporator outlet in enthalpy): the actual compression work h3 - h2
shrinks as the efficiency grows. -/
theorem c8_efficiency_monotone (be : Backend) (f : Fluid)
    (p : CycleParameters) (e1 e2 : ℚ) (ca cb : CyclePointSet)
    (hbuild1 : build_cycle be f { p with eta := e1 } = .ok ca)
    (hbuild2 : build_cycle be f { p with eta := e2 } = .ok cb)
    (he0 : 0 < e1) (he12 : e1 < e2) (he2 : e2 ≤ 1)
    (hA : ca.s1.h < ca.s2.h) (hB : ca.s2.h < ca.s3star.h)
    (hD : ca.s4.h < ca.s2.h) :
    EER ca < EER cb ∧ COP ca < COP cb := by
  rcases build_cycle_ok _ _ _ _ hbuild1 with ⟨_, hcore1, hs3a, _⟩
  rcases build_cycle_ok _ _ _ _ hbuild2 with ⟨_, hcore2, hs3b, _⟩
  have hs3a' : ca.s3.h = ca.s2.h + (ca.s3star.h - ca.s2.h) / e1 := hs3a
  have hs3b' : cb.s3.h = cb.s2.h + (cb.s3star.h - cb.s2.h) / e2 := hs3b
  have hquad := hcore1.symm.trans hcore2
  rw [Except.ok.injEq, Prod.mk.injEq, Prod.mk.injEq, Prod.mk.injEq] at hquad
  obtain ⟨h1eq, h2eq, h4eq, h3seq⟩ := hquad
  have hApos : 0 < ca.s2.h - ca.s1.h := sub_pos.mpr hA
  have hBpos : 0 < ca.s3star.h - ca.s2.h := sub_pos.mpr hB
  have hDpos : 0 < ca.s2.h - ca.s4.h := sub_pos.mpr hD
  have he02 : 0 < e2 := lt_trans he0 he12
  have hden1 : ca.s3.h - ca.s2.h = (ca.s3star.h - ca.s2.h) / e1 := by
    rw [hs3a']; ring
  have hden2 : cb.s3.h - cb.s2.h = (ca.s3star.h - ca.s2.h) / e2 := by
    rw [hs3b', ← h2eq, ← h3seq]; ring
  have hEa : EER ca =
      (ca.s2.h - ca.s1.h) * e1 / (ca.s3star.h - ca.s2.h) := by
    unfold EER
    rw [hden1, div_div_eq_mul_div]
  have hEb : EER cb =
      (ca.s2.h - ca.s1.h) * e2 / (ca.s3star.h - ca.s2.h) := by
    unfold EER
    rw [hden2, ← h1eq, ← h2eq, div_div_eq_mul_div]
  have hnum1 : ca.s3.h - ca.s4.h =
      (ca.s2.h - ca.s4.h) + (ca.s3star.h - ca.s2.h) / e1 := by
    rw [hs3a']; ring
  have hnum2 : cb.s3.h - cb.s4.h =
      (ca.s2.h - ca.s4.h) + (ca.s3star.h - ca.s2.h) / e2 := by
    rw [hs3b', ← h2eq, ← h3seq, ← h4eq]; ring
  have hCa : COP ca =
      (ca.s2.h - ca.s4.h) * e1 / (ca.s3star.h - ca.s2.h) + 1 := by
    unfold COP
    rw [hnum1, hden1, add_div, div_self (ne_of_gt (div_pos hBpos he0)),
      div_div_eq_mul_div]
  have hCb : COP cb =
      (ca.s2.h - ca.s4.h) * e2 / (ca.s3star.h - ca.s2.h) + 1 := by
    unfold COP
    rw [hnum2, hden2, add_div, div_self (ne_of_gt (div_pos hBpos he02)),
      div_div_eq_mul_div]
  constructor
  · rw [hEa, hEb]
    exact (div_lt_div_iff_of_pos_right hBpos).mpr ((mul_lt_mul_left hApos).mpr he12)
  · rw [hCa, hCb]
    exact add_lt_add_right
      ((div_lt_div_iff_of_pos_right hBpos).mpr ((mul_lt_mul_left hDpos).mpr he12)) 1

/-- Witness for C8: raising the toy cycle's isentropic efficiency from
one half to one raises EER from one quarter to one half and COP from five
quarters to three halves. -/
theorem c8_efficiency_monotone_witness :
    EER toyCycle < EER toyCycleEta1 ∧ COP toyCycle < COP toyCycleEta1 :=
  c8_efficiency_monotone toyBackend toyFluid toyParams (1/2) 1
    toyCycle toyCycleEta1
    (by rw [show ({ toyParams with eta := (1/2 : ℚ) } : CycleParameters) =
          toyParams from rfl]
        exact toy_build)
    toy_build_eta1
    (by norm_num) (by norm_num) le_rfl
    (by norm_num [toyCycle, toyState1, toyState2])
    (by norm_num [toyCycle, toyState2, toyState3star])
    (by norm_num [toyCycle, toyState2, toyState4])

/-- C9: parameter validation accepts exactly the parameter sets
satisfying the section-3 invariants (evaporation temperature below
condensation temperature, nonnegative superheat and subcooling,
isentropic efficiency in (0, 1]), and on any violation the engine fails
with `InconsistentCycleParameters` instead of building a cycle. -/
theorem c9_parameter_validation (p : CycleParameters) :
    (validateParams p = .ok () ↔
      (p.Tevap < p.Tcond ∧ 0 ≤ p.superheat ∧ 0 ≤ p.subcool ∧
        0 < p.eta ∧ p.eta ≤ 1)) ∧
    (¬(p.Tevap < p.Tcond ∧ 0 ≤ p.superheat ∧ 0 ≤ p.subcool ∧
        0 < p.eta ∧ p.eta ≤ 1) →
      ∀ (be : Backend) (f : Fluid),
        build_cycle be f p = .error .inconsistentCycleParameters) := by
  constructor
  · unfold validateParams
    split
    next hc => simp [hc]
    next hc => simp [hc]
  · intro hbad be f
    have hv : validateParams p = .error .inconsistentCycleParameters := by
      unfold validateParams
      rw [if_neg hbad]
    unfold build_cycle
    rw [hv]

/-- Witness for C9: parameters with the evaporation temperature above the
condensation temperature are rejected by the engine, while the toy
parameters pass validation. -/
theorem c9_parameter_validation_witness :
    build_cycle toyBackend toyFluid ⟨50, 10, 5, 5, 1/2⟩ =
      .error .inconsistentCycleParameters ∧
    validateParams toyParams = .ok () :=
  ⟨(c9_parameter_validation ⟨50, 10, 5, 5, 1/2⟩).2 (by norm_num)
      toyBackend toyFluid,
   (c9_parameter_validation toyParams).1.mpr (by norm_num [toyParams])⟩

/-- C10: the value supplied for the search property is only the initial
guess of the indirect search: any returned state is constrained by the
target tolerance alone, and on the toy backend the searches started from
quality 0 and from quality 1 both converge to the same state of quality
one quarter — different from both supplied values, mirroring the worked
notebook call that passes quality 0 and receives quality 0.2793. -/
theorem c10_guess_unconstrained :
    (∀ (be : Backend) (f : Fluid) (anchor : StateProp) (av : ℚ)
        (tprop : StateProp) (tv guess : ℚ) (st : ThermodynamicState),
      resolve_indirect be f anchor av tprop tv .x guess = .ok st →
      |getProp st tprop - tv| ≤ tolerance) ∧
    resolve_indirect toyBackend toyFluid .T 10 .h 160 .x 0 =
      .ok toyState1 ∧
    resolve_indirect toyBackend toyFluid .T 10 .h 160 .x 1 =
      .ok toyState1 ∧
    toyState1.x = 1/4 ∧ (1/4 : ℚ) ≠ 0 ∧ (1/4 : ℚ) ≠ 1 := by
  refine ⟨?_, toy_ri, toy_ri_g1, by norm_num [toyState1], by norm_num,
    by norm_num⟩
  intro be f anchor av tprop tv guess st h
  exact resolve_indirect_ok_tol be f anchor av tprop tv .x guess st h

/-- Witness for C10: the state returned from guess 1 meets the enthalpy
target to tolerance. -/
theorem c10_guess_unconstrained_witness :
    |getProp toyState1 .h - 160| ≤ tolerance :=
  c10_guess_unconstrained.1 toyBackend toyFluid .T 10 .h 160 1
    toyState1 toy_ri_g1

end VCR
